import Mathlib

/-!
Shallow embedding of the workout-tracker core: the relational data model
(`src/db/schema.ts`), the data-access layer (`src/data/workouts.ts`), the
validation/action layer (`src/app/dashboard/workout/new/actions.ts`,
`src/app/dashboard/page.tsx` server actions), and the date utilities
(`src/lib/date-utils.ts`).

Conventions of the embedding:
* The database is an explicit value (`DB`) of four row lists, threaded through
  every operation; each row list is kept in insertion order.
* The ambient Clerk identity `await auth()` is an explicit `auth : Option String`
  parameter (`none` = no signed-in user).
* Timestamps are epoch milliseconds (`Int`).
* A `numeric(10,2)` weight is modelled by its value in hundredths (`12.50` is
  `1250`); the decimal string stored by `toString()` is identified with that
  value.
* `throw new Error(msg)` in the data layer is `Except.error msg`; generated
  `uuid` primary keys are passed in as explicit `newId` arguments.
* SQL `ORDER BY` is modelled by `List.insertionSort`; SQL guarantees only that
  the output is sorted by the given key (ties in unspecified order), which
  insertion sort satisfies.
-/

deriving instance DecidableEq for Except

namespace LiftingDiary

/-- A row of the `workouts` table (src/db/schema.ts). `name` and `startedAt`
are nullable columns. Columns never read by a modelled operation
(`completedAt`, `updatedAt`) are omitted. -/
structure Workout where
  id : String
  userId : String
  name : Option String
  startedAt : Option Int
  createdAt : Int
deriving DecidableEq, Repr

/-- A row of the `exercises` table: the shared exercise library. -/
structure Exercise where
  id : String
  name : String
  createdBy : Option String
deriving DecidableEq, Repr

/-- A row of the `workout_exercises` junction table. -/
structure WorkoutExercise where
  id : String
  workoutId : String
  exerciseId : String
  order : Int
deriving DecidableEq, Repr

/-- A row of the `sets` table. -/
structure SetRow where
  id : String
  workoutExerciseId : String
  setNumber : Int
  reps : Option Int
  weight : Option Int
deriving DecidableEq, Repr

/-- The relational store. -/
structure DB where
  workouts : List Workout
  exercises : List Exercise
  workoutExercises : List WorkoutExercise
  sets : List SetRow
deriving DecidableEq, Repr

/-! ### Orderings used by the queries -/

/-- Sort relation ordering descending by an integer key. -/
def descKey {α : Type} (key : α → Int) (a b : α) : Prop := key b ≤ key a

/-- Sort relation ordering ascending by an integer key. -/
def ascKey {α : Type} (key : α → Int) (a b : α) : Prop := key a ≤ key b

instance {α : Type} (key : α → Int) : DecidableRel (descKey key) := fun a b =>
  Int.decLe _ _

instance {α : Type} (key : α → Int) : DecidableRel (ascKey key) := fun a b =>
  Int.decLe _ _

instance {α : Type} (key : α → Int) : IsTotal α (descKey key) where
  total a b := Int.le_total (key b) (key a)

instance {α : Type} (key : α → Int) : IsTrans α (descKey key) where
  trans _ _ _ h h' := le_trans h' h

instance {α : Type} (key : α → Int) : IsTotal α (ascKey key) where
  total a b := Int.le_total (key a) (key b)

instance {α : Type} (key : α → Int) : IsTrans α (ascKey key) where
  trans _ _ _ h h' := le_trans h h'

/-- Descending comparison of nullable timestamps (Postgres default: NULLs
first under DESC): `x` may come before `y`. -/
def optTsDesc : Option Int → Option Int → Prop
  | none, _ => True
  | some _, none => False
  | some s, some t => t ≤ s

instance : DecidableRel optTsDesc := fun x y => by
  rcases x with _ | s <;> rcases y with _ | t <;> unfold optTsDesc <;>
    exact inferInstance

def optTsDesc_total (x y : Option Int) : optTsDesc x y ∨ optTsDesc y x := by
  rcases x with _ | s <;> rcases y with _ | t <;> unfold optTsDesc <;> simp
  exact Int.le_total t s

def optTsDesc_trans {x y z : Option Int} (h : optTsDesc x y)
    (h' : optTsDesc y z) : optTsDesc x z := by
  rcases x with _ | s <;> rcases y with _ | t <;> rcases z with _ | r <;>
    unfold optTsDesc at * <;>
    first
      | trivial
      | exact h.elim
      | exact h'.elim
      | exact Int.le_trans h' h

/-- `ORDER BY started_at DESC` on the `workouts` table. -/
def startedAtDesc (a b : Workout) : Prop := optTsDesc a.startedAt b.startedAt

instance : DecidableRel startedAtDesc := fun a b =>
  inferInstanceAs (Decidable (optTsDesc a.startedAt b.startedAt))

instance : IsTotal Workout startedAtDesc where
  total a b := optTsDesc_total a.startedAt b.startedAt

instance : IsTrans Workout startedAtDesc where
  trans _ _ _ h h' := optTsDesc_trans h h'

/-! ### The data-access layer (src/data/workouts.ts) -/

/-- SQL `gte` on the nullable `started_at` column: NULL compares false. -/
def tsGte (x : Option Int) (b : Int) : Bool :=
  match x with
  | none => false
  | some t => b ≤ t

/-- SQL `lt` on the nullable `started_at` column: NULL compares false. -/
def tsLt (x : Option Int) (b : Int) : Bool :=
  match x with
  | none => false
  | some t => t < b

/-- Nested eager load of one workout-exercise: the row, its `exercise`
relation, and its sets ordered by `set_number` ascending. -/
structure WEDetail where
  row : WorkoutExercise
  exercise : Option Exercise
  sets : List SetRow
deriving DecidableEq, Repr

/-- Nested eager load of one workout: the row and its workout-exercises
ordered by `order` ascending. -/
structure WorkoutDetail where
  row : Workout
  workoutExercises : List WEDetail
deriving DecidableEq, Repr

def loadWEDetail (db : DB) (we : WorkoutExercise) : WEDetail :=
  { row := we
    exercise := db.exercises.find? (fun e => e.id == we.exerciseId)
    sets := List.insertionSort (ascKey SetRow.setNumber)
      (db.sets.filter (fun s => s.workoutExerciseId == we.id)) }

def loadWorkoutDetail (db : DB) (w : Workout) : WorkoutDetail :=
  { row := w
    workoutExercises :=
      (List.insertionSort (ascKey WorkoutExercise.order)
        (db.workoutExercises.filter (fun x => x.workoutId == w.id))).map
        (loadWEDetail db) }

/-- `getUserWorkoutsByDate` (workouts.ts:39). The caller passes a `Date`; the
function clears/saturates its time-of-day fields in server-local time, giving
the two instants `startOfDay` (00:00:00.000) and `endOfDay` (23:59:59.999) of
that local calendar day, which we take as parameters (on a fixed-offset
timezone `endOfDay = startOfDay + 86399999`). The row filter is
`started_at >= startOfDay AND started_at < endOfDay`. -/
def getUserWorkoutsByDate (auth : Option String) (startOfDay endOfDay : Int)
    (db : DB) : Except String (List WorkoutDetail) :=
  match auth with
  | none => .error "Unauthorized"
  | some userId =>
    .ok ((List.insertionSort startedAtDesc
      (db.workouts.filter (fun w =>
        w.userId == userId && tsGte w.startedAt startOfDay &&
          tsLt w.startedAt endOfDay))).map (loadWorkoutDetail db))

/-- `createWorkoutForUser` (workouts.ts:81). `now` is the `defaultNow()`
value of the `created_at` column. -/
def createWorkoutForUser (userId name : String) (startedAt : Int)
    (newId : String) (now : Int) (db : DB) : Workout × DB :=
  let w : Workout :=
    { id := newId, userId := userId, name := some name
      startedAt := some startedAt, createdAt := now }
  (w, { db with workouts := db.workouts ++ [w] })

/-- `getUserWorkoutById` (workouts.ts:101): `findFirst` filtered by id AND
owner; `undefined` (here `none`) when no row matches. -/
def getUserWorkoutById (auth : Option String) (workoutId : String) (db : DB) :
    Except String (Option WorkoutDetail) :=
  match auth with
  | none => .error "Unauthorized"
  | some userId =>
    .ok ((db.workouts.find? (fun w => w.id == workoutId && w.userId == userId)).map
      (loadWorkoutDetail db))

/-- The partial-update payload of `updateWorkoutForUser`:
`{ name?: string; startedAt?: Date }`. `none` = field absent (`undefined`),
which drizzle's `.set` skips. -/
structure WorkoutUpdate where
  name : Option String := none
  startedAt : Option Int := none
deriving DecidableEq, Repr

def applyWorkoutUpdate (d : WorkoutUpdate) (w : Workout) : Workout :=
  { w with
    name := match d.name with | some n => some n | none => w.name
    startedAt := match d.startedAt with | some t => some t | none => w.startedAt }

/-- `updateWorkoutForUser` (workouts.ts:132): `UPDATE ... WHERE id = ? AND
user_id = ? RETURNING *`; the first component is `result[0]` (`none` when
zero rows matched). Drizzle's `.set` drops `undefined` assignments and
throws `Error('No values to set')` when none remain, i.e. when both payload
fields are absent. -/
def updateWorkoutForUser (userId workoutId : String) (d : WorkoutUpdate)
    (db : DB) : Except String (Option Workout × DB) :=
  if d.name = none ∧ d.startedAt = none then .error "No values to set"
  else
    let hit := fun (w : Workout) => w.id == workoutId && w.userId == userId
    .ok (((db.workouts.filter hit).map (applyWorkoutUpdate d)).head?,
      { db with
        workouts := db.workouts.map
          (fun w => if hit w then applyWorkoutUpdate d w else w) })

/-- `addExerciseToWorkout` (workouts.ts:152). -/
def addExerciseToWorkout (userId workoutId exerciseId newId : String)
    (db : DB) : Except String (WorkoutExercise × DB) :=
  match db.workouts.find? (fun w => w.id == workoutId && w.userId == userId) with
  | none => .error "Workout not found or unauthorized"
  | some _ =>
    let existing := (List.insertionSort (descKey WorkoutExercise.order)
      (db.workoutExercises.filter (fun x => x.workoutId == workoutId))).take 1
    let maxOrder : Int :=
      match existing.head? with
      | some x => x.order
      | none => -1
    let we : WorkoutExercise :=
      { id := newId, workoutId := workoutId, exerciseId := exerciseId
        order := maxOrder + 1 }
    .ok (we, { db with workoutExercises := db.workoutExercises ++ [we] })

/-- The relational load `findFirst(workout_exercises, with: { workout: true })`:
the workout-exercise row together with its parent workout. The
`workout_id` foreign key is NOT NULL, so under referential integrity the
parent always exists; a dangling reference is treated as not-found. -/
def findWEWithWorkout (db : DB) (weId : String) :
    Option (WorkoutExercise × Workout) :=
  (db.workoutExercises.find? (fun x => x.id == weId)).bind fun we =>
    (db.workouts.find? (fun w => w.id == we.workoutId)).map fun w => (we, w)

/-- `removeExerciseFromWorkout` (workouts.ts:193). The delete relies on the
`ON DELETE CASCADE` of `sets.workout_exercise_id`, modelled by also dropping
the sets of the removed workout-exercise. -/
def removeExerciseFromWorkout (userId weId : String) (db : DB) :
    Except String DB :=
  match findWEWithWorkout db weId with
  | none => .error "Workout exercise not found or unauthorized"
  | some (_, w) =>
    if w.userId ≠ userId then .error "Workout exercise not found or unauthorized"
    else
      .ok { db with
        workoutExercises := db.workoutExercises.filter (fun x => !(x.id == weId))
        sets := db.sets.filter (fun s => !(s.workoutExerciseId == weId)) }

/-- The payload `{ reps?: number; weight?: number }` of the set mutations;
`none` = field absent (`undefined`). -/
structure SetInput where
  reps : Option Int := none
  weight : Option Int := none
deriving DecidableEq, Repr

/-- `addSetToWorkoutExercise` (workouts.ts:221). The stored weight is
`data.weight ? data.weight.toString() : null`: a JS truthiness test, so an
absent weight AND a weight of exactly `0` both store NULL. -/
def addSetToWorkoutExercise (userId weId : String) (d : SetInput)
    (newId : String) (db : DB) : Except String (SetRow × DB) :=
  match findWEWithWorkout db weId with
  | none => .error "Workout exercise not found or unauthorized"
  | some (_, w) =>
    if w.userId ≠ userId then .error "Workout exercise not found or unauthorized"
    else
      let existing := (List.insertionSort (descKey SetRow.setNumber)
        (db.sets.filter (fun s => s.workoutExerciseId == weId))).take 1
      let maxSetNumber : Int :=
        match existing.head? with
        | some s => s.setNumber
        | none => 0
      let storedWeight : Option Int :=
        match d.weight with
        | some v => if v ≠ 0 then some v else none
        | none => none
      let s : SetRow :=
        { id := newId, workoutExerciseId := weId
          setNumber := maxSetNumber + 1, reps := d.reps, weight := storedWeight }
      .ok (s, { db with sets := db.sets ++ [s] })

/-- The relational load of a set with its workout-exercise and workout. -/
def findSetWithChain (db : DB) (setId : String) :
    Option (SetRow × WorkoutExercise × Workout) :=
  (db.sets.find? (fun s => s.id == setId)).bind fun s =>
    (findWEWithWorkout db s.workoutExerciseId).map fun p => (s, p)

/-- `updateSet` (workouts.ts:267). Drizzle's `.set` skips `undefined`
assignments, so each of `reps`/`weight` is replaced only when supplied; the
weight is `data.weight !== undefined ? data.weight.toString() : undefined`,
so a supplied weight of `0` IS stored (contrast `addSetToWorkoutExercise`).
When BOTH fields are absent, no assignment survives the `undefined` filter
and `.set` throws `Error('No values to set')` — after the ownership check,
since the update statement is built only once that check has passed. -/
def applySetUpdate (d : SetInput) (s : SetRow) : SetRow :=
  { s with
    reps := match d.reps with | some r => some r | none => s.reps
    weight := match d.weight with | some v => some v | none => s.weight }

def updateSet (userId setId : String) (d : SetInput) (db : DB) :
    Except String (Option SetRow × DB) :=
  match findSetWithChain db setId with
  | none => .error "Set not found or unauthorized"
  | some (_, _, w) =>
    if w.userId ≠ userId then .error "Set not found or unauthorized"
    else if d.reps = none ∧ d.weight = none then .error "No values to set"
    else
      let hit := fun (s : SetRow) => s.id == setId
      .ok (((db.sets.filter hit).map (applySetUpdate d)).head?,
        { db with
          sets := db.sets.map (fun s => if hit s then applySetUpdate d s else s) })

/-- `deleteSet` (workouts.ts:306). -/
def deleteSet (userId setId : String) (db : DB) : Except String DB :=
  match findSetWithChain db setId with
  | none => .error "Set not found or unauthorized"
  | some (_, _, w) =>
    if w.userId ≠ userId then .error "Set not found or unauthorized"
    else .ok { db with sets := db.sets.filter (fun s => !(s.id == setId)) }

/-- `createExercise` (src/data/exercises.ts, concatenated among the provided
sources): inserts a library entry attributed to the creating user and
returns the new row; no uniqueness check on the name. -/
def createExercise (userId name newId : String) (db : DB) : Exercise × DB :=
  let e : Exercise := { id := newId, name := name, createdBy := some userId }
  (e, { db with exercises := db.exercises ++ [e] })

/-! ### The validation/action layer
(src/app/dashboard/workout/new/actions.ts; server actions of
src/app/dashboard/page.tsx and its workout detail page) -/

/-- The field names appearing in the zod schemas (`issue.path[0]`). -/
inductive Field where
  | workoutId
  | name
  | startedAt
  | workoutExerciseId
  | exerciseId
  | setId
  | reps
  | weight
deriving DecidableEq, Repr

def isHexDigit (c : Char) : Bool :=
  c.isDigit || ('a' ≤ c && c ≤ 'f') || ('A' ≤ c && c ≤ 'F')

/-- `z.string().uuid(...)`: the canonical 8-4-4-4-12 hexadecimal shape.
(zod's regex additionally constrains the version/variant digits; no claim
depends on that refinement — every identifier used below is either canonical
or grossly malformed.) -/
def isUuid (s : String) : Bool :=
  let cs := s.toList
  cs.length == 36 &&
    (List.range 36).all fun i =>
      if i == 8 || i == 13 || i == 18 || i == 23 then cs.getD i ' ' == '-'
      else isHexDigit (cs.getD i ' ')

/-- `z.string().min(1, reqMsg).max(100, lenMsg)`: the checks run in rule
order and each failing check contributes its issue (the two cannot fail
together). -/
def nameIssues (reqMsg lenMsg : String) (s : String) : List (Field × String) :=
  if s.length < 1 then [(Field.name, reqMsg)]
  else if s.length > 100 then [(Field.name, lenMsg)]
  else []

/-- `z.coerce.date()`: the input is modelled post-coercion as the epoch
milliseconds of the resulting `Date`, with `none` for a value that does not
coerce to a valid date (zod then reports its "Invalid date" issue). -/
def dateIssues (d : Option Int) : List (Field × String) :=
  match d with
  | none => [(Field.startedAt, "Invalid date")]
  | some _ => []

def uuidIssues (f : Field) (msg : String) (s : String) : List (Field × String) :=
  if isUuid s then [] else [(f, msg)]

/-- `z.number().int().min(0).max(999).optional()` for `reps`. The inputs are
already integers in the model, so only the range checks can fail; zod's
default messages apply. -/
def repsIssues (r : Option Int) : List (Field × String) :=
  match r with
  | none => []
  | some v =>
    (if v < 0 then [(Field.reps, "Number must be greater than or equal to 0")] else [])
      ++ (if 999 < v then [(Field.reps, "Number must be less than or equal to 999")] else [])

/-- `z.number().min(0).max(9999.99).optional()` for `weight`, in hundredths
(`9999.99` is `999999`). -/
def weightIssues (w : Option Int) : List (Field × String) :=
  match w with
  | none => []
  | some v =>
    (if v < 0 then [(Field.weight, "Number must be greater than or equal to 0")] else [])
      ++ (if 999999 < v then [(Field.weight, "Number must be less than or equal to 9999.99")] else [])

/-- `result.error.issues[0]?.message ?? 'Validation failed'`. -/
def firstIssueMessage (issues : List (Field × String)) : String :=
  match issues.head? with
  | some p => p.2
  | none => "Validation failed"

/-- The `FieldErrors` record of `createWorkout`/`updateWorkout`
(`{ name?: string; startedAt?: string }`). -/
structure FieldErrors where
  name : Option String := none
  startedAt : Option String := none
deriving DecidableEq, Repr

/-- One step of the `for (const issue of result.error.issues)` loop: the
first message per field wins (`if (!fieldErrors[field])`). `updateWorkout`
filters the field to `name`/`startedAt` explicitly; `createWorkout` does not,
but its schema can only produce those two fields. -/
def addFieldError (fe : FieldErrors) : Field × String → FieldErrors
  | (Field.name, m) => if fe.name = none then { fe with name := some m } else fe
  | (Field.startedAt, m) =>
    if fe.startedAt = none then { fe with startedAt := some m } else fe
  | _ => fe

def buildFieldErrors (issues : List (Field × String)) : FieldErrors :=
  issues.foldl addFieldError {}

/-- `createWorkoutSchema`: `{ name, startedAt }`. -/
structure CreateWorkoutInput where
  name : String
  startedAt : Option Int
deriving DecidableEq, Repr

def createWorkoutIssues (i : CreateWorkoutInput) : List (Field × String) :=
  nameIssues "Workout name is required" "Workout name must be 100 characters or less" i.name
    ++ dateIssues i.startedAt

/-- `updateWorkoutSchema`: `{ workoutId, name, startedAt }`. -/
structure UpdateWorkoutInput where
  workoutId : String
  name : String
  startedAt : Option Int
deriving DecidableEq, Repr

def updateWorkoutIssues (i : UpdateWorkoutInput) : List (Field × String) :=
  uuidIssues Field.workoutId "Invalid workout ID" i.workoutId
    ++ nameIssues "Workout name is required" "Workout name must be 100 characters or less" i.name
    ++ dateIssues i.startedAt

/-- The result type of `createWorkout`/`updateWorkout` (the source's
`CreateWorkoutResult` and `UpdateWorkoutResult`, which are identical):
`{ success: true; redirectUrl }` or `{ success: false; fieldErrors }`. -/
inductive WorkoutActionResult where
  | success (redirectUrl : String)
  | failure (fieldErrors : FieldErrors)
deriving DecidableEq, Repr

/-- The `ActionResult` of the exercise/set actions:
`{ success: true }` or `{ success: false; error }`. -/
inductive ActionOutcome where
  | success
  | failure (error : String)
deriving DecidableEq, Repr

/-- `CreateExerciseResult`: `{ success: true; exerciseId }` or
`{ success: false; error }`. -/
inductive CreateExerciseResult where
  | success (exerciseId : String)
  | failure (error : String)
deriving DecidableEq, Repr

/-- `createWorkout` (workout/new/actions.ts:25): validate, then resolve
identity (`throw new Error('Unauthorized')` — an uncaught fault, modelled by
`Except.error` — when absent), then delegate. `fmtLocal` is
`formatLocalDate` applied to the server-local civil date of the timestamp
(timezone-ambient, so a parameter here); it only feeds the redirect URL. -/
def createWorkout (auth : Option String) (i : CreateWorkoutInput)
    (newId : String) (now : Int) (fmtLocal : Int → String) (db : DB) :
    Except String (WorkoutActionResult × DB) :=
  match i.startedAt with
  | none => .ok (.failure (buildFieldErrors (createWorkoutIssues i)), db)
  | some t =>
    if createWorkoutIssues i ≠ [] then
      .ok (.failure (buildFieldErrors (createWorkoutIssues i)), db)
    else
      match auth with
      | none => .error "Unauthorized"
      | some userId =>
        let (_, db') := createWorkoutForUser userId i.name t newId now db
        .ok (.success ("/dashboard?date=" ++ fmtLocal t), db')

/-- `updateWorkout` (dashboard actions; the file also appears verbatim under
the workout detail page). Note the data-layer result is discarded: the action
returns the success marker whether or not any row was updated. There is no
`try/catch` here, so a data-layer throw would propagate — though the payload
always carries both `name` and `startedAt`, so the `'No values to set'`
branch is unreachable from this action. -/
def updateWorkout (auth : Option String) (i : UpdateWorkoutInput)
    (fmtLocal : Int → String) (db : DB) :
    Except String (WorkoutActionResult × DB) :=
  match i.startedAt with
  | none => .ok (.failure (buildFieldErrors (updateWorkoutIssues i)), db)
  | some t =>
    if updateWorkoutIssues i ≠ [] then
      .ok (.failure (buildFieldErrors (updateWorkoutIssues i)), db)
    else
      match auth with
      | none => .error "Unauthorized"
      | some userId =>
        match updateWorkoutForUser userId i.workoutId
            { name := some i.name, startedAt := some t } db with
        | .ok (_, db') => .ok (.success ("/dashboard?date=" ++ fmtLocal t), db')
        | .error e => .error e

/-- `addExerciseToWorkoutSchema`: `{ workoutId, exerciseId }`. -/
structure AddExerciseInput where
  workoutId : String
  exerciseId : String
deriving DecidableEq, Repr

def addExerciseIssues (i : AddExerciseInput) : List (Field × String) :=
  uuidIssues Field.workoutId "Invalid workout ID" i.workoutId
    ++ uuidIssues Field.exerciseId "Invalid exercise ID" i.exerciseId

/-- `addExerciseToWorkoutAction` (page.tsx actions): validation failure and
missing identity are returned as structured failures; data-layer throws are
caught (`try/catch`) and returned as `{ success: false, error: message }`. -/
def addExerciseToWorkoutAction (auth : Option String) (i : AddExerciseInput)
    (newId : String) (db : DB) : Except String (ActionOutcome × DB) :=
  if addExerciseIssues i ≠ [] then
    .ok (.failure (firstIssueMessage (addExerciseIssues i)), db)
  else
    match auth with
    | none => .ok (.failure "Unauthorized", db)
    | some userId =>
      match addExerciseToWorkout userId i.workoutId i.exerciseId newId db with
      | .ok (_, db') => .ok (.success, db')
      | .error e => .ok (.failure e, db)

/-- `removeExerciseSchema`: `{ workoutExerciseId }`. -/
structure RemoveExerciseInput where
  workoutExerciseId : String
deriving DecidableEq, Repr

def removeExerciseIssues (i : RemoveExerciseInput) : List (Field × String) :=
  uuidIssues Field.workoutExerciseId "Invalid workout exercise ID" i.workoutExerciseId

def removeExerciseAction (auth : Option String) (i : RemoveExerciseInput)
    (db : DB) : Except String (ActionOutcome × DB) :=
  if removeExerciseIssues i ≠ [] then
    .ok (.failure (firstIssueMessage (removeExerciseIssues i)), db)
  else
    match auth with
    | none => .ok (.failure "Unauthorized", db)
    | some userId =>
      match removeExerciseFromWorkout userId i.workoutExerciseId db with
      | .ok db' => .ok (.success, db')
      | .error e => .ok (.failure e, db)

/-- `createExerciseSchema`: `{ name }`. -/
structure CreateExerciseInput where
  name : String
deriving DecidableEq, Repr

def createExerciseIssues (i : CreateExerciseInput) : List (Field × String) :=
  nameIssues "Exercise name is required" "Exercise name must be 100 characters or less" i.name

def createExerciseAction (auth : Option String) (i : CreateExerciseInput)
    (newId : String) (db : DB) : Except String (CreateExerciseResult × DB) :=
  if createExerciseIssues i ≠ [] then
    .ok (.failure (firstIssueMessage (createExerciseIssues i)), db)
  else
    match auth with
    | none => .ok (.failure "Unauthorized", db)
    | some userId =>
      let (e, db') := createExercise userId i.name newId db
      .ok (.success e.id, db')

/-- `addSetSchema`: `{ workoutExerciseId, reps?, weight? }`. -/
structure AddSetInput where
  workoutExerciseId : String
  reps : Option Int := none
  weight : Option Int := none
deriving DecidableEq, Repr

def addSetIssues (i : AddSetInput) : List (Field × String) :=
  uuidIssues Field.workoutExerciseId "Invalid workout exercise ID" i.workoutExerciseId
    ++ repsIssues i.reps ++ weightIssues i.weight

def addSetAction (auth : Option String) (i : AddSetInput) (newId : String)
    (db : DB) : Except String (ActionOutcome × DB) :=
  if addSetIssues i ≠ [] then
    .ok (.failure (firstIssueMessage (addSetIssues i)), db)
  else
    match auth with
    | none => .ok (.failure "Unauthorized", db)
    | some userId =>
      match addSetToWorkoutExercise userId i.workoutExerciseId
          { reps := i.reps, weight := i.weight } newId db with
      | .ok (_, db') => .ok (.success, db')
      | .error e => .ok (.failure e, db)

/-- `updateSetSchema`: `{ setId, reps?, weight? }`. -/
structure UpdateSetInput where
  setId : String
  reps : Option Int := none
  weight : Option Int := none
deriving DecidableEq, Repr

def updateSetIssues (i : UpdateSetInput) : List (Field × String) :=
  uuidIssues Field.setId "Invalid set ID" i.setId
    ++ repsIssues i.reps ++ weightIssues i.weight

def updateSetAction (auth : Option String) (i : UpdateSetInput) (db : DB) :
    Except String (ActionOutcome × DB) :=
  if updateSetIssues i ≠ [] then
    .ok (.failure (firstIssueMessage (updateSetIssues i)), db)
  else
    match auth with
    | none => .ok (.failure "Unauthorized", db)
    | some userId =>
      match updateSet userId i.setId { reps := i.reps, weight := i.weight } db with
      | .ok (_, db') => .ok (.success, db')
      | .error e => .ok (.failure e, db)

/-- `deleteSetSchema`: `{ setId }`. -/
structure DeleteSetInput where
  setId : String
deriving DecidableEq, Repr

def deleteSetIssues (i : DeleteSetInput) : List (Field × String) :=
  uuidIssues Field.setId "Invalid set ID" i.setId

def deleteSetAction (auth : Option String) (i : DeleteSetInput) (db : DB) :
    Except String (ActionOutcome × DB) :=
  if deleteSetIssues i ≠ [] then
    .ok (.failure (firstIssueMessage (deleteSetIssues i)), db)
  else
    match auth with
    | none => .ok (.failure "Unauthorized", db)
    | some userId =>
      match deleteSet userId i.setId db with
      | .ok db' => .ok (.success, db')
      | .error e => .ok (.failure e, db)

/-! ### Date utilities (src/lib/date-utils.ts)

JS strings are modelled as their character lists. `parseLocalDate` builds a
`Date` from local civil-calendar fields and `formatLocalDate` reads the same
fields back, so a `Date` is modelled by those civil fields (`CivilDate`);
the time-of-day and timezone never enter these two functions. -/

/-- The decimal digit characters produced by JS number-to-string conversion.
Callers only apply this to values below 10, so the final catch-all is
unreachable. -/
def digitChar : Nat → Char
  | 0 => '0'
  | 1 => '1'
  | 2 => '2'
  | 3 => '3'
  | 4 => '4'
  | 5 => '5'
  | 6 => '6'
  | 7 => '7'
  | 8 => '8'
  | 9 => '9'
  | _ => '*'

def charVal (c : Char) : Nat := c.toNat - 48

/-- Fuel-driven digit expansion (structural recursion, so that concrete
values reduce in the kernel); `natDigits` supplies enough fuel. -/
def natDigitsAux : Nat → Nat → List Char
  | 0, _ => []
  | fuel + 1, n =>
    if n < 10 then [digitChar n]
    else natDigitsAux fuel (n / 10) ++ [digitChar (n % 10)]

/-- JS `String(n)` for a non-negative integer: decimal digits, most
significant first, no leading zeros (and `"0"` for 0). -/
def natDigits (n : Nat) : List Char := natDigitsAux (n + 1) n

/-- Value of a digit string read left to right. -/
def digitsVal (cs : List Char) : Nat :=
  cs.foldl (fun a c => 10 * a + charVal c) 0

/-- JS `Number(s)` on the strings reaching it here: `some` of the value for a
(possibly empty) digit string — `Number('') === 0` — and `none` (NaN)
otherwise. (The full `Number` grammar also accepts signs, decimal points,
exponents and whitespace; the parts produced by `split('-')` contain no sign
or dash, and no claim evaluates the other forms.) -/
def jsNumber (cs : List Char) : Option Nat :=
  if cs.all (fun c => c.isDigit) then some (digitsVal cs) else none

/-- JS `s.split('-')`: maximal dash-free runs; `''.split('-') === ['']`,
`'a-'.split('-') === ['a','']`. -/
def splitOnDash : List Char → List (List Char)
  | [] => [[]]
  | c :: cs =>
    if c = '-' then [] :: splitOnDash cs
    else
      match splitOnDash cs with
      | [] => [[c]]
      | p :: ps => (c :: p) :: ps

def isLeapYear (y : Int) : Bool :=
  (y % 4 == 0 && y % 100 != 0) || y % 400 == 0

/-- Length of month `m` (1-based) of year `y` in the proleptic Gregorian
calendar used by JS `Date`. -/
def daysInMonth (y m : Int) : Int :=
  if m = 2 then (if isLeapYear y then 29 else 28)
  else if m = 4 ∨ m = 6 ∨ m = 9 ∨ m = 11 then 30
  else 31

/-- The civil-calendar fields of a JS `Date`: `getFullYear()`,
`getMonth() + 1`, `getDate()`. -/
structure CivilDate where
  year : Int
  month : Int
  day : Int
deriving DecidableEq, Repr

/-- Days since the epoch of civil date `(y, m, d)` (`m` 1-based, `d` may be
taken in range); the standard closed-form Gregorian conversion underlying
ECMAScript `MakeDay`. -/
def daysFromCivil (y m d : Int) : Int :=
  let y' := if m ≤ 2 then y - 1 else y
  let era := y'.fdiv 400
  let yoe := y' - era * 400
  let mp := (m + 9) % 12
  let doy := (153 * mp + 2).fdiv 5 + d - 1
  let doe := yoe * 365 + yoe.fdiv 4 - yoe.fdiv 100 + doy
  era * 146097 + doe - 719468

/-- Civil date of a days-since-epoch count: the inverse Gregorian
conversion, as performed by the `Date` getters. -/
def civilFromDays (z : Int) : CivilDate :=
  let z' := z + 719468
  let era := z'.fdiv 146097
  let doe := z' - era * 146097
  let yoe := (doe - doe.fdiv 1460 + doe.fdiv 36524 - doe.fdiv 146096).fdiv 365
  let y := yoe + era * 400
  let doy := doe - (365 * yoe + yoe.fdiv 4 - yoe.fdiv 100)
  let mp := (5 * doy + 2).fdiv 153
  let d := doy - (153 * mp + 2).fdiv 5 + 1
  let m := if mp < 10 then mp + 3 else mp - 9
  ⟨if m ≤ 2 then y + 1 else y, m, d⟩

/-- `new Date(year, month0, day)` (civil fields): ECMAScript `MakeDay`.
A `year` in 0..99 is mapped into 1900..1999; the month is normalized by
floored division; an out-of-range day rolls over through the day count. The
guarded branch is the in-range case, on which the general day-number
normalization is the identity. -/
def jsMakeDate (year month0 day : Int) : CivilDate :=
  let yr := if 0 ≤ year ∧ year ≤ 99 then year + 1900 else year
  let ym := yr + month0.fdiv 12
  let mn := month0.emod 12
  if 1 ≤ day ∧ day ≤ daysInMonth ym (mn + 1) then ⟨ym, mn + 1, day⟩
  else civilFromDays (daysFromCivil ym (mn + 1) 1 + (day - 1))

/-- `parseLocalDate` (date-utils.ts:27):
`const [year, month, day] = dateString.split('-').map(Number);
return new Date(year, month - 1, day)`. A NaN component (`none`) makes the
constructed `Date` invalid, modelled by `none`. -/
def parseLocalDate (s : List Char) : Option CivilDate :=
  let parts := (splitOnDash s).map jsNumber
  match parts.get? 0, parts.get? 1, parts.get? 2 with
  | some (some y), some (some m), some (some d) =>
    some (jsMakeDate (y : Int) ((m : Int) - 1) (d : Int))
  | _, _, _ => none

/-- JS `String(i)` for an integer. -/
def intToStr (i : Int) : List Char :=
  if i < 0 then '-' :: natDigits i.natAbs else natDigits i.toNat

/-- `String(..).padStart(2, '0')`. -/
def padStartTwo (cs : List Char) : List Char :=
  if cs.length < 2 then List.replicate (2 - cs.length) '0' ++ cs else cs

/-- `formatLocalDate` (date-utils.ts:36): `year` unpadded, month and day
padded to two digits, joined with dashes. -/
def formatLocalDate (dt : CivilDate) : List Char :=
  intToStr dt.year ++ '-' ::
    (padStartTwo (intToStr dt.month) ++ '-' :: padStartTwo (intToStr dt.day))

/-- The canonical `YYYY-MM-DD` rendering of a civil date (year padded to four
digits), used to state which strings are "valid `YYYY-MM-DD` date strings". -/
def padStartFour (cs : List Char) : List Char :=
  if cs.length < 4 then List.replicate (4 - cs.length) '0' ++ cs else cs

def encodeYmd (y m d : Nat) : List Char :=
  padStartFour (natDigits y) ++ '-' ::
    (padStartTwo (natDigits m) ++ '-' :: padStartTwo (natDigits d))

/-- `(y, m, d)` is a calendar-valid date renderable as `YYYY-MM-DD`. -/
def validYmd (y m d : Nat) : Prop :=
  y ≤ 9999 ∧ 1 ≤ m ∧ m ≤ 12 ∧ 1 ≤ d ∧ (d : Int) ≤ daysInMonth (y : Int) (m : Int)

instance (y m d : Nat) : Decidable (validYmd y m d) := by
  unfold validYmd; infer_instance

/-! ### Concrete database fixtures used by witnesses and counterexamples -/

def emptyDB : DB :=
  { workouts := [], exercises := [], workoutExercises := [], sets := [] }

/-- A store holding one workout of user `alice` with one workout-exercise and
one set; the acting user in the ownership scenarios is `bob`. -/
def c1db : DB :=
  { workouts := [{ id := "w1", userId := "alice", name := some "W",
                   startedAt := some 0, createdAt := 0 }]
    exercises := [{ id := "e1", name := "Bench Press", createdBy := none }]
    workoutExercises := [{ id := "we1", workoutId := "w1", exerciseId := "e1", order := 0 }]
    sets := [{ id := "s1", workoutExerciseId := "we1", setNumber := 1,
               reps := some 10, weight := none }] }

/-- One workout of `u1` started exactly at the last millisecond
(23:59:59.999) of the local day starting at epoch instant 0. -/
def c2db : DB :=
  { workouts := [{ id := "w1", userId := "u1", name := some "W",
                   startedAt := some 86399999, createdAt := 0 }]
    exercises := [], workoutExercises := [], sets := [] }

/-- One workout owned by `alice` whose id is a canonical UUID; the acting
user in the update scenario is `bob`. -/
def c3db : DB :=
  { workouts := [{ id := "11111111-1111-1111-1111-111111111111", userId := "alice",
                   name := some "W", startedAt := some 0, createdAt := 0 }]
    exercises := [], workoutExercises := [], sets := [] }

/-- A workout-exercise of `u1` holding a single set numbered 1 (`N = 1`). -/
def c4db : DB :=
  { workouts := [{ id := "w1", userId := "u1", name := none,
                   startedAt := none, createdAt := 0 }]
    exercises := []
    workoutExercises := [{ id := "we1", workoutId := "w1", exerciseId := "e1", order := 0 }]
    sets := [{ id := "s1", workoutExerciseId := "we1", setNumber := 1,
               reps := some 10, weight := none }] }

/-- A workout-exercise of `u1` holding sets numbered 1 and 2 (`N = 2`). -/
def c4db2 : DB :=
  { workouts := [{ id := "w1", userId := "u1", name := none,
                   startedAt := none, createdAt := 0 }]
    exercises := []
    workoutExercises := [{ id := "we1", workoutId := "w1", exerciseId := "e1", order := 0 }]
    sets := [{ id := "s1", workoutExerciseId := "we1", setNumber := 1,
               reps := some 10, weight := none },
             { id := "s2", workoutExerciseId := "we1", setNumber := 2,
               reps := some 8, weight := some 10000 }] }

/-- A workout of `u1` with two workout-exercises at orders 0 and 1. -/
def c5db : DB :=
  { workouts := [{ id := "w1", userId := "u1", name := none,
                   startedAt := none, createdAt := 0 }]
    exercises := []
    workoutExercises := [{ id := "we1", workoutId := "w1", exerciseId := "e1", order := 0 },
                         { id := "we2", workoutId := "w1", exerciseId := "e2", order := 1 }]
    sets := [] }

/-- A workout of `u1` with no workout-exercises yet. -/
def c5dbEmpty : DB :=
  { workouts := [{ id := "w1", userId := "u1", name := none,
                   startedAt := none, createdAt := 0 }]
    exercises := [], workoutExercises := [], sets := [] }

/-- A canonical UUID used as a well-formed identifier in action inputs. -/
def uuid1 : String := "11111111-1111-1111-1111-111111111111"

/-- The `YYYY-MM-DD` string `0100-01-01` and the round-trip output the date
utilities produce for it. -/
def ymd0100 : List Char := ['0', '1', '0', '0', '-', '0', '1', '-', '0', '1']

def ymd100out : List Char := ['1', '0', '0', '-', '0', '1', '-', '0', '1']

/-! ### Helper lemmas -/

theorem head_take_one {α : Type} (l : List α) : (l.take 1).head? = l.head? := by
  cases l <;> rfl

/-- The first row of a `DESC`-sorted list attains the maximum key. -/
theorem head_insertionSort_descKey {α : Type} (key : α → Int) (l : List α)
    (N : Int) (hatt : ∃ a ∈ l, key a = N) (hub : ∀ a ∈ l, key a ≤ N) :
    ∃ a, (List.insertionSort (descKey key) l).head? = some a ∧ key a = N := by
  obtain ⟨a0, ha0, hk0⟩ := hatt
  have hmem : a0 ∈ List.insertionSort (descKey key) l :=
    (List.mem_insertionSort _).mpr ha0
  have hsorted := List.sorted_insertionSort (descKey key) l
  rcases hsort : List.insertionSort (descKey key) l with _ | ⟨b, t⟩
  · rw [hsort] at hmem; cases hmem
  · refine ⟨b, rfl, ?_⟩
    rw [hsort] at hmem hsorted
    have hbl : b ∈ l := (List.mem_insertionSort (descKey key)).mp
      (by rw [hsort]; exact List.mem_cons_self b t)
    have hble : key b ≤ N := hub b hbl
    have hge : N ≤ key b := by
      rcases List.mem_cons.mp hmem with h | h
      · exact le_of_eq (h ▸ hk0).symm
      · exact hk0 ▸ List.rel_of_sorted_cons hsorted a0 h
    omega

theorem find?_owned_none (l : List Workout) (wid u : String)
    (h : ∀ w ∈ l, w.id = wid → w.userId ≠ u) :
    l.find? (fun w => w.id == wid && w.userId == u) = none := by
  rw [List.find?_eq_none]
  intro w hw
  simp only [Bool.and_eq_true, beq_iff_eq, not_and]
  exact fun h1 h2 => h w hw h1 h2

theorem findWEWithWorkout_eq_some {db : DB} {weId : String}
    {x : WorkoutExercise} {w : Workout}
    (h : findWEWithWorkout db weId = some (x, w)) :
    x ∈ db.workoutExercises ∧ x.id = weId ∧ w ∈ db.workouts ∧ w.id = x.workoutId := by
  unfold findWEWithWorkout at h
  cases h1 : db.workoutExercises.find? (fun a => a.id == weId) with
  | none => rw [h1] at h; simp at h
  | some we =>
    rw [h1] at h
    simp only [Option.bind_eq_bind, Option.some_bind] at h
    cases h2 : db.workouts.find? (fun w' => w'.id == we.workoutId) with
    | none => rw [h2] at h; simp at h
    | some w' =>
      rw [h2] at h
      simp only [Option.map_some', Option.some.injEq, Prod.mk.injEq] at h
      obtain ⟨hx, hw⟩ := h
      subst hx; subst hw
      exact ⟨List.mem_of_find?_eq_some h1, by simpa using List.find?_some h1,
        List.mem_of_find?_eq_some h2, by simpa using List.find?_some h2⟩

theorem findSetWithChain_eq_some {db : DB} {setId : String} {s : SetRow}
    {x : WorkoutExercise} {w : Workout}
    (h : findSetWithChain db setId = some (s, x, w)) :
    s ∈ db.sets ∧ s.id = setId ∧ x ∈ db.workoutExercises
      ∧ x.id = s.workoutExerciseId ∧ w ∈ db.workouts ∧ w.id = x.workoutId := by
  unfold findSetWithChain at h
  cases h1 : db.sets.find? (fun a => a.id == setId) with
  | none => rw [h1] at h; simp at h
  | some s0 =>
    rw [h1] at h
    simp only [Option.bind_eq_bind, Option.some_bind] at h
    cases h2 : findWEWithWorkout db s0.workoutExerciseId with
    | none => rw [h2] at h; simp at h
    | some p =>
      rw [h2] at h
      simp only [Option.map_some', Option.some.injEq, Prod.mk.injEq] at h
      obtain ⟨hs, hp⟩ := h
      subst hs
      obtain ⟨hwe2, hid2, hwm2, hwid2⟩ := findWEWithWorkout_eq_some (h2.trans (by rw [hp]))
      exact ⟨List.mem_of_find?_eq_some h1, by simpa using List.find?_some h1,
        hwe2, hid2, hwm2, hwid2⟩

theorem tsGte_eq_true {x : Option Int} {b : Int} :
    tsGte x b = true ↔ ∃ t, x = some t ∧ b ≤ t := by
  cases x <;> simp [tsGte]

theorem tsLt_eq_true {x : Option Int} {b : Int} :
    tsLt x b = true ↔ ∃ t, x = some t ∧ t < b := by
  cases x <;> simp [tsLt]

/-! ### C1 -/

/-- C1: every ownership-resolving operation (get workout by id, add exercise
to workout, remove exercise from workout, add/update/delete set) produces one
fixed outcome whenever no row with the target id is owned by the acting user
— covering both "the resource does not exist" and "it exists but belongs to
someone else" — so a caller cannot distinguish absence from another user's
ownership: get-by-id yields the same not-found result (`none`), and each
mutation raises the same single "not found or unauthorized" condition. -/
theorem c1_ownership_indistinguishable (db : DB)
    (u wid eid weid sid nid : String) (dAdd dUpd : SetInput)
    (hw : ∀ w ∈ db.workouts, w.id = wid → w.userId ≠ u)
    (hwe : ∀ x ∈ db.workoutExercises, x.id = weid →
      ∀ w ∈ db.workouts, w.id = x.workoutId → w.userId ≠ u)
    (hs : ∀ s ∈ db.sets, s.id = sid →
      ∀ x ∈ db.workoutExercises, x.id = s.workoutExerciseId →
        ∀ w ∈ db.workouts, w.id = x.workoutId → w.userId ≠ u) :
    getUserWorkoutById (some u) wid db = .ok none
    ∧ addExerciseToWorkout u wid eid nid db
        = .error "Workout not found or unauthorized"
    ∧ removeExerciseFromWorkout u weid db
        = .error "Workout exercise not found or unauthorized"
    ∧ addSetToWorkoutExercise u weid dAdd nid db
        = .error "Workout exercise not found or unauthorized"
    ∧ updateSet u sid dUpd db = .error "Set not found or unauthorized"
    ∧ deleteSet u sid db = .error "Set not found or unauthorized" := by
  have hfind := find?_owned_none db.workouts wid u hw
  refine ⟨?_, ?_, ?_, ?_, ?_, ?_⟩
  · unfold getUserWorkoutById
    simp [hfind]
  · unfold addExerciseToWorkout
    rw [hfind]
  · unfold removeExerciseFromWorkout
    cases h2 : findWEWithWorkout db weid with
    | none => rfl
    | some p =>
      obtain ⟨x, w⟩ := p
      obtain ⟨hxm, hxid, hwm, hwid⟩ := findWEWithWorkout_eq_some h2
      have hne := hwe x hxm hxid w hwm hwid
      simp [hne]
  · unfold addSetToWorkoutExercise
    cases h2 : findWEWithWorkout db weid with
    | none => rfl
    | some p =>
      obtain ⟨x, w⟩ := p
      obtain ⟨hxm, hxid, hwm, hwid⟩ := findWEWithWorkout_eq_some h2
      have hne := hwe x hxm hxid w hwm hwid
      simp [hne]
  · unfold updateSet
    cases h2 : findSetWithChain db sid with
    | none => rfl
    | some q =>
      obtain ⟨s, x, w⟩ := q
      obtain ⟨hsm, hsid, hxm, hxid, hwm, hwid⟩ := findSetWithChain_eq_some h2
      have hne := hs s hsm hsid x hxm hxid w hwm hwid
      simp [hne]
  · unfold deleteSet
    cases h2 : findSetWithChain db sid with
    | none => rfl
    | some q =>
      obtain ⟨s, x, w⟩ := q
      obtain ⟨hsm, hsid, hxm, hxid, hwm, hwid⟩ := findSetWithChain_eq_some h2
      have hne := hs s hsm hsid x hxm hxid w hwm hwid
      simp [hne]

/-- C1 witness: in `c1db` everything belongs to `alice`; for the acting user
`bob` every operation resolves to the single not-found/unauthorized
outcome. -/
theorem c1_witness :
    getUserWorkoutById (some "bob") "w1" c1db = .ok none
    ∧ addExerciseToWorkout "bob" "w1" "e1" "n1" c1db
        = .error "Workout not found or unauthorized"
    ∧ removeExerciseFromWorkout "bob" "we1" c1db
        = .error "Workout exercise not found or unauthorized"
    ∧ addSetToWorkoutExercise "bob" "we1" {} "n1" c1db
        = .error "Workout exercise not found or unauthorized"
    ∧ updateSet "bob" "s1" {} c1db = .error "Set not found or unauthorized"
    ∧ deleteSet "bob" "s1" c1db = .error "Set not found or unauthorized" :=
  c1_ownership_indistinguishable c1db "bob" "w1" "e1" "we1" "s1" "n1" {} {}
    (by decide) (by decide) (by decide)

/-! ### C2 -/

/-- C2 counterexample: the date-filtered listing excludes a workout whose
`started_at` is exactly 23:59:59.999 of the selected local day (the filter is
a strict `lt` against that instant), contradicting the claim that such a
workout is included. In `c2db`, user `u1` owns a workout started at epoch
instant 86399999, the last millisecond of the local day `[0, 86399999]`, yet
the listing for that day is empty. -/
theorem c2_boundary_counterexample :
    getUserWorkoutsByDate (some "u1") 0 86399999 c2db = .ok []
    ∧ (86399999 : Int) = 0 + 86399999
    ∧ ∃ w ∈ c2db.workouts, w.userId = "u1" ∧ w.startedAt = some 86399999 :=
  ⟨by decide, rfl, by decide⟩

/-- C2 (amended): for every user and local day, listing workouts by date
returns exactly the workouts owned by that user whose `started_at` lies in
the half-open interval from 00:00:00.000 (inclusive) up to but excluding
23:59:59.999 (`startOfDay ≤ t < endOfDay`) — a workout at the exact final
millisecond 23:59:59.999 is excluded — ordered by `started_at`
descending. -/
theorem c2_listByDate_spec (db : DB) (u : String) (s e : Int) :
    ∃ rows : List Workout,
      getUserWorkoutsByDate (some u) s e db = .ok (rows.map (loadWorkoutDetail db))
      ∧ (∀ w, w ∈ rows ↔ w ∈ db.workouts ∧ w.userId = u ∧
          ∃ t, w.startedAt = some t ∧ s ≤ t ∧ t < e)
      ∧ rows.Pairwise startedAtDesc := by
  refine ⟨List.insertionSort startedAtDesc (db.workouts.filter fun w =>
      w.userId == u && tsGte w.startedAt s && tsLt w.startedAt e), rfl, ?_,
    List.sorted_insertionSort startedAtDesc _⟩
  intro w
  rw [List.mem_insertionSort, List.mem_filter]
  simp only [Bool.and_eq_true, beq_iff_eq, tsGte_eq_true, tsLt_eq_true]
  constructor
  · rintro ⟨hm, ⟨hu, t1, ht1, hle⟩, t2, ht2, hlt⟩
    rw [ht1] at ht2
    obtain rfl := Option.some.inj ht2
    exact ⟨hm, hu, t1, ht1, hle, hlt⟩
  · rintro ⟨hm, hu, t, ht, hle, hlt⟩
    exact ⟨hm, ⟨hu, t, ht, hle⟩, t, ht, hlt⟩

/-! ### C3 -/

/-- C3 counterexample: `c3db` holds one workout owned by `alice`; acting user
`bob` submits a well-formed update for it. The action returns the success
marker (with redirect), not a failure result — the claim that the caller
receives a failure result is false. -/
theorem c3_update_success_counterexample :
    updateWorkout (some "bob")
        { workoutId := uuid1, name := "X", startedAt := some 0 }
        (fun _ => "1970-01-01") c3db
      = .ok (.success "/dashboard?date=1970-01-01", c3db)
    ∧ ¬ ∃ fe db', updateWorkout (some "bob")
        { workoutId := uuid1, name := "X", startedAt := some 0 }
        (fun _ => "1970-01-01") c3db = .ok (.failure fe, db') := by
  have h1 : updateWorkout (some "bob")
      { workoutId := uuid1, name := "X", startedAt := some 0 }
      (fun _ => "1970-01-01") c3db
      = .ok (.success "/dashboard?date=1970-01-01", c3db) := by decide
  refine ⟨h1, ?_⟩
  rintro ⟨fe, db', h2⟩
  rw [h1] at h2
  simp at h2

/-- C3 (amended): when no workout with the given id is owned by the acting
user, the data layer — called with the action's payload, which carries both
`name` and `startedAt` — updates zero rows: the store is unchanged and
`result[0]` is `none`; but the `updateWorkout` action ignores that result
and still returns the success marker: the caller is not handed a failure
result. -/
theorem c3_noop_update (db : DB) (u : String) (i : UpdateWorkoutInput)
    (t : Int) (fmt : Int → String)
    (hnone : ∀ w ∈ db.workouts, w.id = i.workoutId → w.userId ≠ u)
    (hval : updateWorkoutIssues i = []) (ht : i.startedAt = some t) :
    updateWorkoutForUser u i.workoutId
        { name := some i.name, startedAt := some t } db = .ok (none, db)
    ∧ updateWorkout (some u) i fmt db
        = .ok (.success ("/dashboard?date=" ++ fmt t), db) := by
  have hfilter : db.workouts.filter
      (fun w => w.id == i.workoutId && w.userId == u) = [] := by
    rw [List.filter_eq_nil_iff]
    intro w hw
    simp only [Bool.and_eq_true, beq_iff_eq, not_and]
    exact fun h1 h2 => hnone w hw h1 h2
  have hmap : ∀ d' : WorkoutUpdate, db.workouts.map
      (fun w => if w.id == i.workoutId && w.userId == u
        then applyWorkoutUpdate d' w else w) = db.workouts := by
    intro d'
    have hcongr : ∀ w ∈ db.workouts,
        (if w.id == i.workoutId && w.userId == u
          then applyWorkoutUpdate d' w else w) = id w := by
      intro w hw
      have : ¬(w.id == i.workoutId && w.userId == u) = true := by
        simp only [Bool.and_eq_true, beq_iff_eq, not_and]
        exact fun h1 h2 => hnone w hw h1 h2
      simp [this]
    rw [List.map_congr_left hcongr, List.map_id]
  have hforUser : updateWorkoutForUser u i.workoutId
      { name := some i.name, startedAt := some t } db = .ok (none, db) := by
    unfold updateWorkoutForUser
    rw [if_neg (by simp)]
    dsimp only
    rw [hfilter, hmap _]
    rfl
  refine ⟨hforUser, ?_⟩
  unfold updateWorkout
  rw [ht]
  simp [hval, hforUser]

/-- C3 witness: the amended statement evaluated on `c3db` for acting user
`bob` against `alice`'s workout. -/
theorem c3_witness :
    updateWorkoutForUser "bob" uuid1
        { name := some "X", startedAt := some 0 } c3db = .ok (none, c3db)
    ∧ updateWorkout (some "bob")
        { workoutId := uuid1, name := "X", startedAt := some 0 }
        (fun _ => "1970-01-01") c3db
      = .ok (.success ("/dashboard?date=" ++ "1970-01-01"), c3db) :=
  c3_noop_update c3db "bob"
    { workoutId := uuid1, name := "X", startedAt := some 0 } 0
    (fun _ => "1970-01-01") (by decide) (by decide) (by decide)

/-! ### C4 -/

/-- C4 counterexample: in `c4db` the workout-exercise `we1` of `u1` holds one
set numbered 1 (`N = 1`). Deleting that set (`k = N = 1`) and adding a new
set yields set-number 1 again — the deleted number is reused — not `N + 1 = 2`
as the claim requires. -/
theorem c4_setNumber_reuse_counterexample :
    ((deleteSet "u1" "s1" c4db).bind fun db' =>
      (addSetToWorkoutExercise "u1" "we1" { reps := some 5 } "s2" db').map
        fun p => p.1.setNumber) = .ok 1
    ∧ ((deleteSet "u1" "s1" c4db).bind fun db' =>
      (addSetToWorkoutExercise "u1" "we1" { reps := some 5 } "s2" db').map
        fun p => p.1.setNumber) ≠ .ok 2 :=
  ⟨by decide, by decide⟩

/-- C4 (amended): a new set is assigned `max(existing set-number) + 1` (1 if
none); hence after deleting a set `k` while the maximal set-number `N` is
still held by a surviving set (`k < N` when numbers are distinct), the next
added set receives `N + 1`. (When the deleted set was itself the unique
maximum, the maximum is recomputed from the survivors and the deleted number
is reused — see the counterexample.) -/
theorem c4_setNumber_append (db : DB) (u weId sid nid : String) (d : SetInput)
    (s0 : SetRow) (x0 : WorkoutExercise) (w0 : Workout) (N : Int)
    (hfind : db.sets.find? (fun s => s.id == sid) = some s0)
    (hweid : s0.workoutExerciseId = weId)
    (hchain : findWEWithWorkout db weId = some (x0, w0))
    (howner : w0.userId = u)
    (hatt : ∃ s' ∈ db.sets, s'.workoutExerciseId = weId ∧ s'.id ≠ sid ∧ s'.setNumber = N)
    (hub : ∀ s' ∈ db.sets, s'.workoutExerciseId = weId → s'.setNumber ≤ N) :
    ∃ db', deleteSet u sid db = .ok db'
      ∧ (addSetToWorkoutExercise u weId d nid db').map (fun p => p.1.setNumber)
          = .ok (N + 1) := by
  have hnotne : ¬(w0.userId ≠ u) := by simp [howner]
  have hchain0 : findSetWithChain db sid = some (s0, x0, w0) := by
    unfold findSetWithChain
    rw [hfind]
    simp only [Option.bind_eq_bind, Option.some_bind]
    rw [hweid, hchain]
    rfl
  have hdel : deleteSet u sid db
      = .ok { db with sets := db.sets.filter (fun s => !(s.id == sid)) } := by
    unfold deleteSet
    rw [hchain0]
    simp [hnotne]
  have hatt2 : ∃ a ∈ db.sets.filter
      (fun s => s.workoutExerciseId == weId && !(s.id == sid)), a.setNumber = N := by
    obtain ⟨s', hm, hwe, hid, hN⟩ := hatt
    refine ⟨s', ?_, hN⟩
    rw [List.mem_filter]
    exact ⟨hm, by simp [hwe, hid]⟩
  have hub2 : ∀ a ∈ db.sets.filter
      (fun s => s.workoutExerciseId == weId && !(s.id == sid)), a.setNumber ≤ N := by
    intro a ha
    rw [List.mem_filter] at ha
    obtain ⟨ha1, ha2⟩ := ha
    simp only [Bool.and_eq_true, beq_iff_eq] at ha2
    exact hub a ha1 ha2.1
  obtain ⟨a, hhead, haN⟩ := head_insertionSort_descKey SetRow.setNumber
    (db.sets.filter (fun s => s.workoutExerciseId == weId && !(s.id == sid)))
    N hatt2 hub2
  have hmaxeq : (((List.insertionSort (descKey SetRow.setNumber)
      (db.sets.filter (fun s => s.workoutExerciseId == weId && !(s.id == sid)))).take 1).head?)
      = some a := by
    rw [head_take_one]; exact hhead
  refine ⟨{ db with sets := db.sets.filter (fun s => !(s.id == sid)) }, hdel, ?_⟩
  unfold addSetToWorkoutExercise
  rw [show findWEWithWorkout
      { db with sets := db.sets.filter (fun s => !(s.id == sid)) } weId
      = some (x0, w0) from hchain]
  simp [hnotne, hmaxeq, haN]
  rfl

/-- C4 witness: in `c4db2` the exercise holds sets numbered 1 and 2
(`N = 2`); deleting set-number 1 and adding a new set yields `N + 1 = 3`. -/
theorem c4_witness :
    ∃ db', deleteSet "u1" "s1" c4db2 = .ok db'
      ∧ (addSetToWorkoutExercise "u1" "we1" { reps := some 5 } "s3" db').map
          (fun p => p.1.setNumber) = .ok 3 :=
  c4_setNumber_append c4db2 "u1" "we1" "s1" "s3" { reps := some 5 }
    { id := "s1", workoutExerciseId := "we1", setNumber := 1, reps := some 10, weight := none }
    { id := "we1", workoutId := "w1", exerciseId := "e1", order := 0 }
    { id := "w1", userId := "u1", name := none, startedAt := none, createdAt := 0 }
    2 (by decide) (by decide) (by decide) (by decide) (by decide) (by decide)

/-! ### C5 -/

/-- C5: adding an exercise to an owned workout appends a workout-exercise
whose `order` is `max(existing order) + 1` (0 when the workout has none),
strictly greater than every existing order in that workout; removing a
workout-exercise deletes exactly that row and renumbers nothing (all other
rows survive unchanged); and the nested listing returns workout-exercises
sorted by `order` ascending. -/
theorem c5_order_append (db : DB) (u wid eid nid weId : String)
    (w0 : Workout) (N : Int)
    (h0 : db.workouts.find? (fun w => w.id == wid && w.userId == u) = some w0) :
    (db.workoutExercises.filter (fun x => x.workoutId == wid) = [] →
      addExerciseToWorkout u wid eid nid db = .ok
        ({ id := nid, workoutId := wid, exerciseId := eid, order := 0 },
         { db with workoutExercises := db.workoutExercises
            ++ [{ id := nid, workoutId := wid, exerciseId := eid, order := 0 }] }))
    ∧ ((∃ x ∈ db.workoutExercises, x.workoutId = wid ∧ x.order = N) →
       (∀ x ∈ db.workoutExercises, x.workoutId = wid → x.order ≤ N) →
       addExerciseToWorkout u wid eid nid db = .ok
        ({ id := nid, workoutId := wid, exerciseId := eid, order := N + 1 },
         { db with workoutExercises := db.workoutExercises
            ++ [{ id := nid, workoutId := wid, exerciseId := eid, order := N + 1 }] })
       ∧ ∀ x ∈ db.workoutExercises, x.workoutId = wid → x.order < N + 1)
    ∧ (∀ db', removeExerciseFromWorkout u weId db = .ok db' →
        db'.workoutExercises = db.workoutExercises.filter (fun x => !(x.id == weId))
        ∧ db'.workouts = db.workouts)
    ∧ (∀ w, List.Sorted (ascKey WorkoutExercise.order)
        ((loadWorkoutDetail db w).workoutExercises.map WEDetail.row)) := by
  refine ⟨?_, ?_, ?_, ?_⟩
  · intro hemp
    unfold addExerciseToWorkout
    rw [h0]
    simp [hemp]
  · intro hatt hub
    have hatt2 : ∃ a ∈ db.workoutExercises.filter (fun x => x.workoutId == wid),
        a.order = N := by
      obtain ⟨x, hm, hwid2, hord⟩ := hatt
      exact ⟨x, by rw [List.mem_filter]; exact ⟨hm, by simp [hwid2]⟩, hord⟩
    have hub2 : ∀ a ∈ db.workoutExercises.filter (fun x => x.workoutId == wid),
        a.order ≤ N := by
      intro a ha
      rw [List.mem_filter] at ha
      exact hub a ha.1 (by simpa using ha.2)
    obtain ⟨a, hhead, haN⟩ := head_insertionSort_descKey WorkoutExercise.order
      (db.workoutExercises.filter (fun x => x.workoutId == wid)) N hatt2 hub2
    have hmaxeq : (((List.insertionSort (descKey WorkoutExercise.order)
        (db.workoutExercises.filter (fun x => x.workoutId == wid))).take 1).head?)
        = some a := by
      rw [head_take_one]; exact hhead
    constructor
    · unfold addExerciseToWorkout
      rw [h0]
      simp [hmaxeq, haN]
    · intro x hm hx
      have := hub x hm hx
      omega
  · intro db' h
    unfold removeExerciseFromWorkout at h
    cases h2 : findWEWithWorkout db weId with
    | none => rw [h2] at h; simp at h
    | some p =>
      obtain ⟨x, w⟩ := p
      rw [h2] at h
      dsimp only at h
      by_cases hne : w.userId ≠ u
      · rw [if_pos hne] at h; simp at h
      · rw [if_neg hne] at h
        simp only [Except.ok.injEq] at h
        subst h
        exact ⟨rfl, rfl⟩
  · intro w
    have hcomp : WEDetail.row ∘ loadWEDetail db = id := funext fun x => rfl
    unfold loadWorkoutDetail
    dsimp only
    rw [List.map_map, hcomp, List.map_id]
    exact List.sorted_insertionSort _ _

/-- C5 witness: the empty case evaluated on `c5dbEmpty` (first appended
exercise gets order 0) and the append, remove and listing cases on `c5db`
(orders 0 and 1 present, `N = 1`, new order 2). -/
theorem c5_witness :
    (addExerciseToWorkout "u1" "w1" "e9" "we9" c5dbEmpty = .ok
      ({ id := "we9", workoutId := "w1", exerciseId := "e9", order := 0 },
       { c5dbEmpty with workoutExercises := c5dbEmpty.workoutExercises
          ++ [{ id := "we9", workoutId := "w1", exerciseId := "e9", order := 0 }] }))
    ∧ (addExerciseToWorkout "u1" "w1" "e9" "we9" c5db = .ok
        ({ id := "we9", workoutId := "w1", exerciseId := "e9", order := 2 },
         { c5db with workoutExercises := c5db.workoutExercises
            ++ [{ id := "we9", workoutId := "w1", exerciseId := "e9", order := 2 }] })
       ∧ ∀ x ∈ c5db.workoutExercises, x.workoutId = "w1" → x.order < 2)
    ∧ (∀ db', removeExerciseFromWorkout "u1" "we1" c5db = .ok db' →
        db'.workoutExercises = c5db.workoutExercises.filter (fun x => !(x.id == "we1"))
        ∧ db'.workouts = c5db.workouts)
    ∧ (∀ w, List.Sorted (ascKey WorkoutExercise.order)
        ((loadWorkoutDetail c5db w).workoutExercises.map WEDetail.row)) :=
  have h := c5_order_append c5db "u1" "w1" "e9" "we9" "we1"
    { id := "w1", userId := "u1", name := none, startedAt := none, createdAt := 0 }
    1 (by decide)
  have h0 := c5_order_append c5dbEmpty "u1" "w1" "e9" "we9" "we1"
    { id := "w1", userId := "u1", name := none, startedAt := none, createdAt := 0 }
    1 (by decide)
  ⟨h0.1 (by decide), h.2.1 (by decide) (by decide), h.2.2.1, h.2.2.2⟩

/-! ### C6 -/

/-- The `fieldErrors` accumulator keeps the FIRST issue message per field:
`name`. -/
theorem foldl_addFieldError_name (issues : List (Field × String))
    (fe : FieldErrors) :
    (issues.foldl addFieldError fe).name
      = match fe.name with
        | some m => some m
        | none => ((issues.filter (fun p => p.1 = Field.name)).head?).map Prod.snd := by
  induction issues generalizing fe with
  | nil => cases h : fe.name <;> simp [h]
  | cons p rest ih =>
    obtain ⟨f, m⟩ := p
    cases f <;> cases h : fe.name <;> cases h2 : fe.startedAt <;>
      simp [addFieldError, ih, h, h2]

/-- The `fieldErrors` accumulator keeps the FIRST issue message per field:
`startedAt`. -/
theorem foldl_addFieldError_startedAt (issues : List (Field × String))
    (fe : FieldErrors) :
    (issues.foldl addFieldError fe).startedAt
      = match fe.startedAt with
        | some m => some m
        | none => ((issues.filter (fun p => p.1 = Field.startedAt)).head?).map Prod.snd := by
  induction issues generalizing fe with
  | nil => cases h : fe.startedAt <;> simp [h]
  | cons p rest ih =>
    obtain ⟨f, m⟩ := p
    cases f <;> cases h : fe.name <;> cases h2 : fe.startedAt <;>
      simp [addFieldError, ih, h, h2]

/-- C6 counterexample: `updateSetAction` given an input violating TWO fields
(`setId` not a UUID, `reps` negative) returns a single error string — the
first issue's message — not a map from field name to message: the reported
failure carries no entry for the violated `reps` field. No state changes
(`emptyDB` is returned untouched), but the failure shape contradicts the
claim that every mutating operation reports a per-field map. -/
theorem c6_single_message_counterexample :
    updateSetAction (some "u") { setId := "bad", reps := some (-5) } emptyDB
      = .ok (.failure "Invalid set ID", emptyDB)
    ∧ updateSetIssues { setId := "bad", reps := some (-5) }
      = [(Field.setId, "Invalid set ID"),
         (Field.reps, "Number must be greater than or equal to 0")] :=
  ⟨by decide, by decide⟩

/-- C6 (amended): on a validation failure every mutating action returns its
failure result without touching the store — but the failure shape is not
uniform: `createWorkout`/`updateWorkout` return the map from field name to
the FIRST violated rule message for that field, while the six exercise/set
actions return the single message of the first issue overall. -/
theorem c6_validation_failure (auth : Option String) (db : DB)
    (i1 : CreateWorkoutInput) (i2 : UpdateWorkoutInput) (i3 : AddExerciseInput)
    (i4 : RemoveExerciseInput) (i5 : CreateExerciseInput) (i6 : AddSetInput)
    (i7 : UpdateSetInput) (i8 : DeleteSetInput) (nid : String) (now : Int)
    (fmt : Int → String) :
    (createWorkoutIssues i1 ≠ [] →
      createWorkout auth i1 nid now fmt db
        = .ok (.failure (buildFieldErrors (createWorkoutIssues i1)), db))
    ∧ (updateWorkoutIssues i2 ≠ [] →
      updateWorkout auth i2 fmt db
        = .ok (.failure (buildFieldErrors (updateWorkoutIssues i2)), db))
    ∧ (addExerciseIssues i3 ≠ [] →
      addExerciseToWorkoutAction auth i3 nid db
        = .ok (.failure (firstIssueMessage (addExerciseIssues i3)), db))
    ∧ (removeExerciseIssues i4 ≠ [] →
      removeExerciseAction auth i4 db
        = .ok (.failure (firstIssueMessage (removeExerciseIssues i4)), db))
    ∧ (createExerciseIssues i5 ≠ [] →
      createExerciseAction auth i5 nid db
        = .ok (.failure (firstIssueMessage (createExerciseIssues i5)), db))
    ∧ (addSetIssues i6 ≠ [] →
      addSetAction auth i6 nid db
        = .ok (.failure (firstIssueMessage (addSetIssues i6)), db))
    ∧ (updateSetIssues i7 ≠ [] →
      updateSetAction auth i7 db
        = .ok (.failure (firstIssueMessage (updateSetIssues i7)), db))
    ∧ (deleteSetIssues i8 ≠ [] →
      deleteSetAction auth i8 db
        = .ok (.failure (firstIssueMessage (deleteSetIssues i8)), db))
    ∧ (∀ issues : List (Field × String),
        (buildFieldErrors issues).name
          = ((issues.filter (fun p => p.1 = Field.name)).head?).map Prod.snd
        ∧ (buildFieldErrors issues).startedAt
          = ((issues.filter (fun p => p.1 = Field.startedAt)).head?).map Prod.snd)
    ∧ (∀ (issues : List (Field × String)) (p : Field × String),
        issues.head? = some p → firstIssueMessage issues = p.2) := by
  refine ⟨?_, ?_, ?_, ?_, ?_, ?_, ?_, ?_, ?_, ?_⟩
  · intro hbad
    unfold createWorkout
    cases ht : i1.startedAt with
    | none => rfl
    | some t => simp only [if_pos hbad]
  · intro hbad
    unfold updateWorkout
    cases ht : i2.startedAt with
    | none => rfl
    | some t => simp only [if_pos hbad]
  · intro hbad
    unfold addExerciseToWorkoutAction
    rw [if_pos hbad]
  · intro hbad
    unfold removeExerciseAction
    rw [if_pos hbad]
  · intro hbad
    unfold createExerciseAction
    rw [if_pos hbad]
  · intro hbad
    unfold addSetAction
    rw [if_pos hbad]
  · intro hbad
    unfold updateSetAction
    rw [if_pos hbad]
  · intro hbad
    unfold deleteSetAction
    rw [if_pos hbad]
  · intro issues
    exact ⟨foldl_addFieldError_name issues {},
      foldl_addFieldError_startedAt issues {}⟩
  · intro issues p hp
    unfold firstIssueMessage
    rw [hp]

/-- C6 witness: each action evaluated at a concretely invalid input over the
empty store, plus the first-message-per-field characterization at a concrete
issue list with a duplicated field. -/
theorem c6_witness :
    createWorkout (some "u") { name := "", startedAt := none } "n" 0
        (fun _ => "d") emptyDB
      = .ok (.failure (buildFieldErrors
          (createWorkoutIssues { name := "", startedAt := none })), emptyDB)
    ∧ updateWorkout (some "u") { workoutId := "bad", name := "", startedAt := none }
        (fun _ => "d") emptyDB
      = .ok (.failure (buildFieldErrors
          (updateWorkoutIssues { workoutId := "bad", name := "", startedAt := none })), emptyDB)
    ∧ addExerciseToWorkoutAction (some "u") { workoutId := "bad", exerciseId := "bad" }
        "n" emptyDB
      = .ok (.failure "Invalid workout ID", emptyDB)
    ∧ removeExerciseAction (some "u") { workoutExerciseId := "bad" } emptyDB
      = .ok (.failure "Invalid workout exercise ID", emptyDB)
    ∧ createExerciseAction (some "u") { name := "" } "n" emptyDB
      = .ok (.failure "Exercise name is required", emptyDB)
    ∧ addSetAction (some "u") { workoutExerciseId := "bad" } "n" emptyDB
      = .ok (.failure "Invalid workout exercise ID", emptyDB)
    ∧ updateSetAction (some "u") { setId := "bad" } emptyDB
      = .ok (.failure "Invalid set ID", emptyDB)
    ∧ deleteSetAction (some "u") { setId := "bad" } emptyDB
      = .ok (.failure "Invalid set ID", emptyDB)
    ∧ ((buildFieldErrors [(Field.name, "A"), (Field.name, "B")]).name
          = (([(Field.name, "A"), (Field.name, "B")].filter
              (fun p => p.1 = Field.name)).head?).map Prod.snd
        ∧ (buildFieldErrors [(Field.name, "A"), (Field.name, "B")]).startedAt
          = (([(Field.name, "A"), (Field.name, "B")].filter
              (fun p => p.1 = Field.startedAt)).head?).map Prod.snd)
    ∧ firstIssueMessage [(Field.setId, "X"), (Field.reps, "Y")] = "X" :=
  have h := c6_validation_failure (some "u") emptyDB
    { name := "", startedAt := none }
    { workoutId := "bad", name := "", startedAt := none }
    { workoutId := "bad", exerciseId := "bad" }
    { workoutExerciseId := "bad" }
    { name := "" }
    { workoutExerciseId := "bad" }
    { setId := "bad" }
    { setId := "bad" }
    "n" 0 (fun _ => "d")
  ⟨h.1 (by decide), h.2.1 (by decide), h.2.2.1 (by decide), h.2.2.2.1 (by decide),
    h.2.2.2.2.1 (by decide), h.2.2.2.2.2.1 (by decide), h.2.2.2.2.2.2.1 (by decide),
    h.2.2.2.2.2.2.2.1 (by decide),
    h.2.2.2.2.2.2.2.2.1 [(Field.name, "A"), (Field.name, "B")],
    h.2.2.2.2.2.2.2.2.2 [(Field.setId, "X"), (Field.reps, "Y")] _ rfl⟩

/-! ### C8 -/

/-- C8: an authorized `updateSet` with at least one field supplied (with
both omitted drizzle's `.set` throws `'No values to set'` instead) succeeds,
and the store changes only in the `sets` table, where every row is rewritten
by a function that preserves `id`, `setNumber` and the workout-exercise
reference, leaves rows with a different id untouched, leaves `reps` (resp.
`weight`) unchanged when that field is omitted from the input, and replaces
it with the supplied value (never null) on the targeted row when present. -/
theorem c8_partial_update (db : DB) (u sid : String) (d : SetInput)
    (s0 : SetRow) (x0 : WorkoutExercise) (w0 : Workout)
    (hfind : db.sets.find? (fun s => s.id == sid) = some s0)
    (hchain : findWEWithWorkout db s0.workoutExerciseId = some (x0, w0))
    (howner : w0.userId = u)
    (hsome : d.reps ≠ none ∨ d.weight ≠ none) :
    ∃ r db', updateSet u sid d db = .ok (r, db')
      ∧ db'.workouts = db.workouts
      ∧ db'.workoutExercises = db.workoutExercises
      ∧ db'.exercises = db.exercises
      ∧ ∃ f : SetRow → SetRow, db'.sets = db.sets.map f
        ∧ ∀ s : SetRow,
            (f s).id = s.id
            ∧ (f s).setNumber = s.setNumber
            ∧ (f s).workoutExerciseId = s.workoutExerciseId
            ∧ (s.id ≠ sid → f s = s)
            ∧ (d.reps = none → (f s).reps = s.reps)
            ∧ (d.weight = none → (f s).weight = s.weight)
            ∧ (∀ rv, d.reps = some rv → s.id = sid → (f s).reps = some rv)
            ∧ (∀ wv, d.weight = some wv → s.id = sid → (f s).weight = some wv) := by
  have hchain0 : findSetWithChain db sid = some (s0, x0, w0) := by
    unfold findSetWithChain
    rw [hfind]
    simp only [Option.bind_eq_bind, Option.some_bind]
    rw [hchain]
    rfl
  have hnotne : ¬(w0.userId ≠ u) := by simp [howner]
  have hne2 : ¬(d.reps = none ∧ d.weight = none) := by
    rintro ⟨h1, h2⟩
    rcases hsome with h | h
    · exact h h1
    · exact h h2
  refine ⟨((db.sets.filter (fun s => s.id == sid)).map (applySetUpdate d)).head?,
    { db with sets := (db.sets.map
        (fun s => if s.id == sid then applySetUpdate d s else s)) },
    ?_, rfl, rfl, rfl,
    fun s => if s.id == sid then applySetUpdate d s else s, rfl, ?_⟩
  · unfold updateSet
    rw [hchain0]
    simp [hnotne, hne2]
  · intro s
    by_cases hs : s.id = sid
    · have hb : (s.id == sid) = true := by simp [hs]
      refine ⟨by simp [hb, applySetUpdate], by simp [hb, applySetUpdate],
        by simp [hb, applySetUpdate], fun h => absurd hs h,
        fun h => by simp [hb, applySetUpdate, h],
        fun h => by simp [hb, applySetUpdate, h],
        fun rv h _ => by simp [hb, applySetUpdate, h],
        fun wv h _ => by simp [hb, applySetUpdate, h]⟩
    · have hb : (s.id == sid) = false := by simp [hs]
      refine ⟨by simp [hb], by simp [hb], by simp [hb], fun _ => by simp [hb],
        fun _ => by simp [hb], fun _ => by simp [hb],
        fun rv _ hcontra => absurd hcontra hs,
        fun wv _ hcontra => absurd hcontra hs⟩

/-- C8 witness: updating set `s1` of `c4db` with only `reps` supplied. -/
theorem c8_witness :
    ∃ r db', updateSet "u1" "s1" { reps := some 3 } c4db = .ok (r, db')
      ∧ db'.workouts = c4db.workouts
      ∧ db'.workoutExercises = c4db.workoutExercises
      ∧ db'.exercises = c4db.exercises
      ∧ ∃ f : SetRow → SetRow, db'.sets = c4db.sets.map f
        ∧ ∀ s : SetRow,
            (f s).id = s.id
            ∧ (f s).setNumber = s.setNumber
            ∧ (f s).workoutExerciseId = s.workoutExerciseId
            ∧ (s.id ≠ "s1" → f s = s)
            ∧ ((some 3 : Option Int) = none → (f s).reps = s.reps)
            ∧ ((none : Option Int) = none → (f s).weight = s.weight)
            ∧ (∀ rv, (some 3 : Option Int) = some rv → s.id = "s1" → (f s).reps = some rv)
            ∧ (∀ wv, (none : Option Int) = some wv → s.id = "s1" → (f s).weight = some wv) :=
  c8_partial_update c4db "u1" "s1" { reps := some 3 }
    { id := "s1", workoutExerciseId := "we1", setNumber := 1, reps := some 10, weight := none }
    { id := "we1", workoutId := "w1", exerciseId := "e1", order := 0 }
    { id := "w1", userId := "u1", name := none, startedAt := none, createdAt := 0 }
    (by decide) (by decide) (by decide) (by decide)

/-! ### C9 -/

/-- C9: with no resolvable identity (`auth = none`) and schema-valid input,
`createWorkout` and `updateWorkout` fail with an uncaught thrown fault
(`Except.error "Unauthorized"`), while the six secondary exercise/set actions
return the structured result `{ success: false, error: "Unauthorized" }`
without throwing and without touching the store. -/
theorem c9_unauthorized_asymmetry (db : DB) (i1 : CreateWorkoutInput)
    (i2 : UpdateWorkoutInput) (i3 : AddExerciseInput) (i4 : RemoveExerciseInput)
    (i5 : CreateExerciseInput) (i6 : AddSetInput) (i7 : UpdateSetInput)
    (i8 : DeleteSetInput) (nid : String) (now : Int) (fmt : Int → String)
    (h1 : createWorkoutIssues i1 = []) (h2 : updateWorkoutIssues i2 = [])
    (h3 : addExerciseIssues i3 = []) (h4 : removeExerciseIssues i4 = [])
    (h5 : createExerciseIssues i5 = []) (h6 : addSetIssues i6 = [])
    (h7 : updateSetIssues i7 = []) (h8 : deleteSetIssues i8 = []) :
    createWorkout none i1 nid now fmt db = .error "Unauthorized"
    ∧ updateWorkout none i2 fmt db = .error "Unauthorized"
    ∧ addExerciseToWorkoutAction none i3 nid db = .ok (.failure "Unauthorized", db)
    ∧ removeExerciseAction none i4 db = .ok (.failure "Unauthorized", db)
    ∧ createExerciseAction none i5 nid db = .ok (.failure "Unauthorized", db)
    ∧ addSetAction none i6 nid db = .ok (.failure "Unauthorized", db)
    ∧ updateSetAction none i7 db = .ok (.failure "Unauthorized", db)
    ∧ deleteSetAction none i8 db = .ok (.failure "Unauthorized", db) := by
  have hst1 : ∃ t, i1.startedAt = some t := by
    have hsplit := h1
    unfold createWorkoutIssues at hsplit
    rw [List.append_eq_nil] at hsplit
    cases ht : i1.startedAt with
    | none => rw [ht] at hsplit; simp [dateIssues] at hsplit
    | some t => exact ⟨t, rfl⟩
  have hst2 : ∃ t, i2.startedAt = some t := by
    have hsplit := h2
    unfold updateWorkoutIssues at hsplit
    rw [List.append_eq_nil, List.append_eq_nil] at hsplit
    cases ht : i2.startedAt with
    | none => rw [ht] at hsplit; simp [dateIssues] at hsplit
    | some t => exact ⟨t, rfl⟩
  refine ⟨?_, ?_, ?_, ?_, ?_, ?_, ?_, ?_⟩
  · obtain ⟨t, ht⟩ := hst1
    unfold createWorkout
    rw [ht]
    simp [h1]
  · obtain ⟨t, ht⟩ := hst2
    unfold updateWorkout
    rw [ht]
    simp [h2]
  · unfold addExerciseToWorkoutAction
    simp [h3]
  · unfold removeExerciseAction
    simp [h4]
  · unfold createExerciseAction
    simp [h5]
  · unfold addSetAction
    simp [h6]
  · unfold updateSetAction
    simp [h7]
  · unfold deleteSetAction
    simp [h8]

/-- C9 witness: schema-valid inputs over the empty store with no signed-in
user. -/
theorem c9_witness :
    createWorkout none { name := "X", startedAt := some 0 } "n" 0
        (fun _ => "d") emptyDB = .error "Unauthorized"
    ∧ updateWorkout none { workoutId := uuid1, name := "X", startedAt := some 0 }
        (fun _ => "d") emptyDB = .error "Unauthorized"
    ∧ addExerciseToWorkoutAction none { workoutId := uuid1, exerciseId := uuid1 }
        "n" emptyDB = .ok (.failure "Unauthorized", emptyDB)
    ∧ removeExerciseAction none { workoutExerciseId := uuid1 } emptyDB
        = .ok (.failure "Unauthorized", emptyDB)
    ∧ createExerciseAction none { name := "X" } "n" emptyDB
        = .ok (.failure "Unauthorized", emptyDB)
    ∧ addSetAction none { workoutExerciseId := uuid1 } "n" emptyDB
        = .ok (.failure "Unauthorized", emptyDB)
    ∧ updateSetAction none { setId := uuid1 } emptyDB
        = .ok (.failure "Unauthorized", emptyDB)
    ∧ deleteSetAction none { setId := uuid1 } emptyDB
        = .ok (.failure "Unauthorized", emptyDB) :=
  c9_unauthorized_asymmetry emptyDB
    { name := "X", startedAt := some 0 }
    { workoutId := uuid1, name := "X", startedAt := some 0 }
    { workoutId := uuid1, exerciseId := uuid1 }
    { workoutExerciseId := uuid1 }
    { name := "X" }
    { workoutExerciseId := uuid1 }
    { setId := uuid1 }
    { setId := uuid1 }
    "n" 0 (fun _ => "d")
    (by decide) (by decide) (by decide) (by decide) (by decide) (by decide)
    (by decide) (by decide)

/-! ### C10 -/

/-- C10: the add-set schema accepts a weight of exactly 0 (minimum 0), yet an
authorized `addSetToWorkoutExercise` with weight 0 stores NULL (`none`) — the
value is tested for JS truthiness before storage — while an authorized
`updateSet` with weight 0 stores 0: add and update treat a zero weight
differently. -/
theorem c10_zero_weight (db : DB) (u weId sid nid : String) (r : Option Int)
    (x0 : WorkoutExercise) (w0 : Workout) (s0 : SetRow)
    (x1 : WorkoutExercise) (w1 : Workout)
    (hchain : findWEWithWorkout db weId = some (x0, w0)) (ho : w0.userId = u)
    (hfind : db.sets.find? (fun s => s.id == sid) = some s0)
    (hchain2 : findWEWithWorkout db s0.workoutExerciseId = some (x1, w1))
    (ho2 : w1.userId = u) :
    weightIssues (some 0) = []
    ∧ (addSetToWorkoutExercise u weId { reps := r, weight := some 0 } nid db).map
        (fun p => p.1.weight) = .ok none
    ∧ (∃ rr db', updateSet u sid { reps := none, weight := some 0 } db = .ok (rr, db')
        ∧ ∀ s ∈ db'.sets, s.id = sid → s.weight = some 0) := by
  have hnotne : ¬(w0.userId ≠ u) := by simp [ho]
  have hnotne2 : ¬(w1.userId ≠ u) := by simp [ho2]
  have hchain0 : findSetWithChain db sid = some (s0, x1, w1) := by
    unfold findSetWithChain
    rw [hfind]
    simp only [Option.bind_eq_bind, Option.some_bind]
    rw [hchain2]
    rfl
  refine ⟨by decide, ?_, ?_⟩
  · unfold addSetToWorkoutExercise
    rw [hchain]
    simp [hnotne]
    rfl
  · refine ⟨((db.sets.filter (fun s => s.id == sid)).map
        (applySetUpdate { reps := none, weight := some 0 })).head?,
      { db with sets := db.sets.map (fun s => if s.id == sid
          then applySetUpdate { reps := none, weight := some 0 } s else s) },
      ?_, ?_⟩
    · unfold updateSet
      rw [hchain0]
      simp [hnotne2]
    · intro s hs hsid
      simp only [List.mem_map] at hs
      obtain ⟨s', hs', rfl⟩ := hs
      by_cases hb : s'.id = sid
      · simp [hb, applySetUpdate]
      · have : (s'.id == sid) = false := by simp [hb]
        rw [if_neg (by simp [hb])] at hsid ⊢
        exact absurd hsid hb

/-- C10 witness: over `c4db`, adding a set with weight 0 stores NULL while
updating set `s1` with weight 0 stores 0. -/
theorem c10_witness :
    weightIssues (some 0) = []
    ∧ (addSetToWorkoutExercise "u1" "we1" { reps := some 5, weight := some 0 } "s9" c4db).map
        (fun p => p.1.weight) = .ok none
    ∧ (∃ rr db', updateSet "u1" "s1" { reps := none, weight := some 0 } c4db = .ok (rr, db')
        ∧ ∀ s ∈ db'.sets, s.id = "s1" → s.weight = some 0) :=
  c10_zero_weight c4db "u1" "we1" "s1" "s9" (some 5)
    { id := "we1", workoutId := "w1", exerciseId := "e1", order := 0 }
    { id := "w1", userId := "u1", name := none, startedAt := none, createdAt := 0 }
    { id := "s1", workoutExerciseId := "we1", setNumber := 1, reps := some 10, weight := none }
    { id := "we1", workoutId := "w1", exerciseId := "e1", order := 0 }
    { id := "w1", userId := "u1", name := none, startedAt := none, createdAt := 0 }
    (by decide) (by decide) (by decide) (by decide) (by decide)

/-! ### C7: supporting lemmas about digits, parsing and the calendar -/

theorem digitChar_isDigit : ∀ r < 10, (digitChar r).isDigit = true := by decide

theorem charVal_digitChar : ∀ r < 10, charVal (digitChar r) = r := by decide

theorem natDigitsAux_irrel : ∀ f1 f2 n : Nat, n < f1 → n < f2 →
    natDigitsAux f1 n = natDigitsAux f2 n := by
  intro f1
  induction f1 with
  | zero => intro f2 n h1 _; omega
  | succ f ih =>
    intro f2 n h1 h2
    cases f2 with
    | zero => omega
    | succ g =>
      unfold natDigitsAux
      by_cases hn : n < 10
      · simp [hn]
      · simp only [hn, if_false]
        rw [ih g (n / 10) (by omega) (by omega)]

theorem natDigits_unfold (n : Nat) :
    natDigits n = if n < 10 then [digitChar n]
      else natDigits (n / 10) ++ [digitChar (n % 10)] := by
  have h0 : natDigits n = if n < 10 then [digitChar n]
      else natDigitsAux n (n / 10) ++ [digitChar (n % 10)] := rfl
  rw [h0]
  by_cases hn : n < 10
  · simp [hn]
  · simp only [hn, if_false]
    rw [natDigitsAux_irrel n (n / 10 + 1) (n / 10) (by omega) (by omega)]
    rfl

theorem natDigits_all_digits (n : Nat) :
    ∀ c ∈ natDigits n, c.isDigit = true := by
  induction n using Nat.strong_induction_on with
  | _ n ih =>
    rw [natDigits_unfold]
    by_cases hn : n < 10
    · simp only [hn, if_true, List.mem_singleton]
      rintro c rfl
      exact digitChar_isDigit n hn
    · simp only [hn, if_false, List.mem_append, List.mem_singleton]
      rintro c (hc | rfl)
      · exact ih (n / 10) (by omega) c hc
      · exact digitChar_isDigit (n % 10) (by omega)

theorem digitsVal_append_singleton (a : List Char) (c : Char) :
    digitsVal (a ++ [c]) = 10 * digitsVal a + charVal c := by
  unfold digitsVal
  rw [List.foldl_append]
  rfl

theorem digitsVal_natDigits (n : Nat) : digitsVal (natDigits n) = n := by
  induction n using Nat.strong_induction_on with
  | _ n ih =>
    rw [natDigits_unfold]
    by_cases hn : n < 10
    · simp only [hn, if_true]
      show 10 * 0 + charVal (digitChar n) = n
      rw [charVal_digitChar n hn]
      omega
    · simp only [hn, if_false]
      rw [digitsVal_append_singleton, ih (n / 10) (by omega),
        charVal_digitChar (n % 10) (by omega)]
      omega

theorem natDigits_len_succ (n : Nat) (h : 10 ≤ n) :
    (natDigits n).length = (natDigits (n / 10)).length + 1 := by
  rw [natDigits_unfold]
  rw [if_neg (by omega)]
  rw [List.length_append]
  rfl

theorem natDigits_len_pos (n : Nat) : 1 ≤ (natDigits n).length := by
  rw [natDigits_unfold]
  by_cases hn : n < 10
  · simp [hn]
  · simp [hn]

theorem natDigits_len_four (y : Nat) (h : 1000 ≤ y) :
    4 ≤ (natDigits y).length := by
  rw [natDigits_len_succ y (by omega), natDigits_len_succ (y / 10) (by omega),
    natDigits_len_succ (y / 10 / 10) (by omega)]
  have := natDigits_len_pos (y / 10 / 10 / 10)
  omega

theorem padStartTwo_all_digits (cs : List Char)
    (h : ∀ c ∈ cs, c.isDigit = true) : ∀ c ∈ padStartTwo cs, c.isDigit = true := by
  unfold padStartTwo
  by_cases hl : cs.length < 2
  · simp only [hl, if_true, List.mem_append]
    rintro c (hc | hc)
    · rw [List.eq_of_mem_replicate hc]; decide
    · exact h c hc
  · simp only [hl, if_false]
    exact h

theorem padStartFour_all_digits (cs : List Char)
    (h : ∀ c ∈ cs, c.isDigit = true) : ∀ c ∈ padStartFour cs, c.isDigit = true := by
  unfold padStartFour
  by_cases hl : cs.length < 4
  · simp only [hl, if_true, List.mem_append]
    rintro c (hc | hc)
    · rw [List.eq_of_mem_replicate hc]; decide
    · exact h c hc
  · simp only [hl, if_false]
    exact h

theorem padStartFour_of_ge (cs : List Char) (h : 4 ≤ cs.length) :
    padStartFour cs = cs := by
  unfold padStartFour
  rw [if_neg (by omega)]

theorem digitsVal_replicate_zero (k : Nat) (cs : List Char) :
    digitsVal (List.replicate k '0' ++ cs) = digitsVal cs := by
  induction k with
  | zero => rfl
  | succ j ih =>
    rw [List.replicate_succ, List.cons_append]
    show List.foldl (fun a c => 10 * a + charVal c)
      (10 * 0 + charVal '0') (List.replicate j '0' ++ cs) = digitsVal cs
    exact ih

theorem digitsVal_padStartTwo (cs : List Char) :
    digitsVal (padStartTwo cs) = digitsVal cs := by
  unfold padStartTwo
  by_cases hl : cs.length < 2
  · rw [if_pos hl, digitsVal_replicate_zero]
  · rw [if_neg hl]

theorem digitsVal_padStartFour (cs : List Char) :
    digitsVal (padStartFour cs) = digitsVal cs := by
  unfold padStartFour
  by_cases hl : cs.length < 4
  · rw [if_pos hl, digitsVal_replicate_zero]
  · rw [if_neg hl]

theorem not_dash_of_digits (cs : List Char)
    (h : ∀ c ∈ cs, c.isDigit = true) : '-' ∉ cs := by
  intro hm
  have := h _ hm
  exact absurd this (by decide)

theorem splitOnDash_no_dash (a : List Char) (h : '-' ∉ a) :
    splitOnDash a = [a] := by
  induction a with
  | nil => rfl
  | cons c cs ih =>
    have hc : ¬(c = '-') := fun hc => h (hc ▸ List.mem_cons_self c cs)
    have hcs : '-' ∉ cs := fun hm => h (List.mem_cons_of_mem c hm)
    unfold splitOnDash
    rw [if_neg hc, ih hcs]

theorem splitOnDash_append (a rest : List Char) (h : '-' ∉ a) :
    splitOnDash (a ++ '-' :: rest) = a :: splitOnDash rest := by
  induction a with
  | nil =>
    show splitOnDash ('-' :: rest) = [] :: splitOnDash rest
    simp [splitOnDash]
  | cons c cs ih =>
    have hc : ¬(c = '-') := fun hc => h (hc ▸ List.mem_cons_self c cs)
    have hcs : '-' ∉ cs := fun hm => h (List.mem_cons_of_mem c hm)
    show splitOnDash (c :: (cs ++ '-' :: rest)) = (c :: cs) :: splitOnDash rest
    simp only [List.cons_append, splitOnDash, if_neg hc]
    rw [ih hcs]

theorem jsNumber_of_digits (cs : List Char)
    (h : ∀ c ∈ cs, c.isDigit = true) : jsNumber cs = some (digitsVal cs) := by
  unfold jsNumber
  rw [if_pos (List.all_eq_true.mpr h)]

theorem jsNumber_padStartFour_natDigits (n : Nat) :
    jsNumber (padStartFour (natDigits n)) = some n := by
  rw [jsNumber_of_digits _ (padStartFour_all_digits _ (natDigits_all_digits n)),
    digitsVal_padStartFour, digitsVal_natDigits]

theorem jsNumber_padStartTwo_natDigits (n : Nat) :
    jsNumber (padStartTwo (natDigits n)) = some n := by
  rw [jsNumber_of_digits _ (padStartTwo_all_digits _ (natDigits_all_digits n)),
    digitsVal_padStartTwo, digitsVal_natDigits]

theorem splitOnDash_encodeYmd (y m d : Nat) :
    splitOnDash (encodeYmd y m d)
      = [padStartFour (natDigits y), padStartTwo (natDigits m),
         padStartTwo (natDigits d)] := by
  unfold encodeYmd
  rw [splitOnDash_append _ _
      (not_dash_of_digits _ (padStartFour_all_digits _ (natDigits_all_digits y))),
    splitOnDash_append _ _
      (not_dash_of_digits _ (padStartTwo_all_digits _ (natDigits_all_digits m))),
    splitOnDash_no_dash _
      (not_dash_of_digits _ (padStartTwo_all_digits _ (natDigits_all_digits d)))]

theorem intToStr_natCast (n : Nat) : intToStr (n : Int) = natDigits n := by
  unfold intToStr
  rw [if_neg (Int.not_lt.mpr (Int.natCast_nonneg n)), Int.toNat_natCast]

/-- `new Date(y, m-1, d)` with in-range month and day (and a year not subject
to the 0..99 remapping) normalizes nothing: the civil fields are `(y, m, d)`
unchanged. -/
theorem jsMakeDate_in_range (y m d : Int) (hy : 100 ≤ y)
    (hm1 : 1 ≤ m) (hm2 : m ≤ 12) (hd1 : 1 ≤ d) (hd2 : d ≤ daysInMonth y m) :
    jsMakeDate y (m - 1) d = ⟨y, m, d⟩ := by
  have hyr : ¬(0 ≤ y ∧ y ≤ 99) := by omega
  have hf : (m - 1).fdiv 12 = 0 := by
    interval_cases m <;> decide
  have he : (m - 1).emod 12 = m - 1 := by
    interval_cases m <;> decide
  have hm1' : m - 1 + 1 = m := by omega
  unfold jsMakeDate
  simp only [hyr, if_false, hf, he, add_zero, hm1']
  rw [if_pos ⟨hd1, hd2⟩]

theorem formatLocalDate_natCast (y m d : Nat)
    (hy4 : 4 ≤ (natDigits y).length) :
    formatLocalDate ⟨(y : Int), (m : Int), (d : Int)⟩ = encodeYmd y m d := by
  unfold formatLocalDate encodeYmd
  dsimp only
  rw [intToStr_natCast, intToStr_natCast, intToStr_natCast,
    padStartFour_of_ge _ hy4]

/-! ### C7 -/

/-- C7 counterexample: `"0100-01-01"` is a calendar-valid `YYYY-MM-DD`
string, but `formatLocalDate (parseLocalDate s)` yields `"100-01-01"` — the
year is rendered without zero-padding — which differs from the input, so the
round-trip claim fails as stated for every valid string. -/
theorem c7_roundtrip_counterexample :
    ymd0100 = encodeYmd 100 1 1
    ∧ validYmd 100 1 1
    ∧ (parseLocalDate ymd0100).map formatLocalDate = some ymd100out
    ∧ ymd100out ≠ ymd0100 :=
  ⟨by decide, by decide, by decide, by decide⟩

/-- C7 (amended): for every calendar-valid `YYYY-MM-DD` string whose year is
at least 1000 (so the year renders as exactly four digits and escapes the JS
`Date` remapping of years 0..99 into 1900..1999),
`formatLocalDate (parseLocalDate s)` returns `s` itself. -/
theorem c7_roundtrip (y m d : Nat) (h : validYmd y m d) (hy : 1000 ≤ y) :
    (parseLocalDate (encodeYmd y m d)).map formatLocalDate
      = some (encodeYmd y m d) := by
  obtain ⟨hy9, hm1, hm2, hd1, hd2⟩ := h
  unfold parseLocalDate
  rw [splitOnDash_encodeYmd]
  simp only [List.map_cons, List.map_nil, jsNumber_padStartFour_natDigits,
    jsNumber_padStartTwo_natDigits, List.get?_cons_zero, List.get?_cons_succ]
  rw [jsMakeDate_in_range (y : Int) (m : Int) (d : Int) (by omega)
    (by omega) (by omega) (by omega) hd2]
  rw [Option.map_some']
  rw [formatLocalDate_natCast y m d (natDigits_len_four y hy)]

/-- C7 witness: the amended round trip evaluated at the leap-day string
`"2024-02-29"`. -/
theorem c7_witness :
    validYmd 2024 2 29 ∧ 1000 ≤ 2024
    ∧ (parseLocalDate (encodeYmd 2024 2 29)).map formatLocalDate
        = some (encodeYmd 2024 2 29) :=
  ⟨by decide, by decide, c7_roundtrip 2024 2 29 (by decide) (by decide)⟩

end LiftingDiary
